import Mathlib

/-!
Shallow embedding of `upgrade.py`, an automated Ubuntu update agent.

The script drives a linear workflow: create a snapshot, collect system
information, run the apt update sequence, wait, run health checks
(LLM-based with a deterministic fallback) and roll back on failure.
External effects (shell commands, the LLM call) are modelled by
environments mapping each command string to its outcome, so every
function of the script becomes a pure Lean function of those
environments.  Python string operations used by the script
(`strip`, `split('\n')`, `split()`, `in`, `startswith`, `upper`) are
modelled character-exactly on `List Char`.
-/

set_option autoImplicit false

namespace UpgradeAgent

/-! ### Python string primitives -/

/-- Characters treated as whitespace by Python's `str.strip()` / `str.split()`
(the ASCII ones; the probe outputs handled by the script are ASCII apart from
the service marker, which is not whitespace). -/
def isPyWs (c : Char) : Bool :=
  c = ' ' || c = '\t' || c = '\n' || c = '\r' || c = Char.ofNat 11 || c = Char.ofNat 12

/-- Model of Python `str.strip()` on the character list: drop whitespace from
both ends. -/
def stripChars (l : List Char) : List Char :=
  ((l.dropWhile isPyWs).reverse.dropWhile isPyWs).reverse

/-- Model of Python `str.strip()`. -/
def pyStrip (s : String) : String :=
  String.mk (stripChars s.data)

/-- Helper for `pySplitNl`: split a character list at newlines, `acc` holding
the (reversed) characters of the current field. Like Python's
`str.split('\n')`, the result always has one more field than there are
newlines; the empty string yields `[[]]`. -/
def splitNlAux : List Char → List Char → List (List Char)
  | [], acc => [acc.reverse]
  | c :: rest, acc =>
    if c = '\n' then acc.reverse :: splitNlAux rest []
    else splitNlAux rest (c :: acc)

/-- Model of Python `s.split('\n')`. -/
def pySplitNl (s : String) : List String :=
  (splitNlAux s.data []).map String.mk

/-- Helper for `pyTokens`: split at whitespace runs, discarding empty fields,
as Python's argument-less `str.split()` does. -/
def tokensAux : List Char → List Char → List (List Char)
  | [], acc => if acc.isEmpty then [] else [acc.reverse]
  | c :: rest, acc =>
    if isPyWs c then
      if acc.isEmpty then tokensAux rest []
      else acc.reverse :: tokensAux rest []
    else tokensAux rest (c :: acc)

/-- Model of Python `s.split()` (no separator: split on whitespace runs,
no empty fields). -/
def pyTokens (l : List Char) : List (List Char) :=
  tokensAux l []

/-- Model of Python `line.split()[0]` (the script only evaluates it on
non-blank lines, where the token list is non-empty). -/
def firstToken (l : List Char) : String :=
  String.mk ((pyTokens l).headD [])

/-- Boolean contiguous-sublist test, used to model Python's substring
operator `in`. -/
def hasSublist (pat : List Char) : List Char → Bool
  | [] => pat.isEmpty
  | c :: rest => pat.isPrefixOf (c :: rest) || hasSublist pat rest

/-- Model of Python `pat in s` on strings (substring containment). -/
def pyContains (s pat : String) : Bool :=
  hasSublist pat.data s.data

/-- Model of Python `str.upper()` (character-wise uppercasing; exact on the
ASCII marker the script searches for). -/
def pyUpper (s : String) : String :=
  String.mk (s.data.map Char.toUpper)

/-! ### Command execution model (`run_command`, upgrade.py lines 45-62) -/

/-- Outcome of handing a command string to the operating system: normal
completion with an exit code and both output streams, a timeout of the
600-second bound, or any other execution fault raising an exception whose
text is `msg`. -/
inductive CmdOutcome where
  | completed (code : Int) (out err : String)
  | timedOut
  | fault (msg : String)
deriving DecidableEq, Repr

/-- An execution environment: what the operating system does for each
command string the agent may run. -/
def CmdEnv : Type := String → CmdOutcome

/-- Embedding of `SystemUpdateAgent.run_command`: returns
`(returncode, stdout, stderr)` on completion and the sentinel
`(-1, "", msg)` on timeout or any other fault, never propagating the
exception. -/
def run_command (env : CmdEnv) (command : String) : Int × String × String :=
  match env command with
  | .completed code out err => (code, out, err)
  | .timedOut => (-1, "", "Command timeout")
  | .fault msg => (-1, "", msg)

/-- Exit code of a command under an environment. -/
def exitCodeOf (env : CmdEnv) (command : String) : Int :=
  (run_command env command).1

/-- Captured standard output of a command under an environment. -/
def stdoutOf (env : CmdEnv) (command : String) : String :=
  (run_command env command).2.1

/-! ### Command strings used by the agent (verbatim from upgrade.py) -/

def CMD_WHICH_TIMESHIFT : String := "which timeshift"

/-- The timeshift creation command, parameterised by the run's
`SNAPSHOT_NAME` (a timestamp computed at module load). -/
def tsCreateCmd (snapshotName : String) : String :=
  "sudo timeshift --create --comments '" ++ snapshotName ++ "' --scripted"

/-- The fallback package-selection backup command. -/
def pkgBackupCmd (snapshotName : String) : String :=
  "dpkg --get-selections > /tmp/package_list_" ++ snapshotName ++ ".txt"

def CMD_APT_UPDATE : String := "sudo apt update"

def CMD_APT_UPGRADE : String := "sudo DEBIAN_FRONTEND=noninteractive apt upgrade -y"

def CMD_APT_FULL_UPGRADE : String := "sudo DEBIAN_FRONTEND=noninteractive apt full-upgrade -y"

def CMD_AUTOREMOVE : String := "sudo apt autoremove -y"

def CMD_AUTOCLEAN : String := "sudo apt autoclean"

def CMD_LSB_RELEASE : String := "lsb_release -d"

def CMD_UNAME : String := "uname -r"

def CMD_DF : String := "df -h / | tail -1"

def CMD_FREE : String := "free -h | grep Mem"

def CMD_RUNNING_SERVICES : String :=
  "systemctl list-units --type=service --state=running --no-pager"

def CMD_FAILED_SERVICES : String :=
  "systemctl list-units --type=service --state=failed --no-pager"

def CMD_BROKEN_PACKAGES : String := "dpkg -l | grep -E '^.[^i]'"

def CMD_PING : String := "ping -c 2 8.8.8.8"

def CMD_TS_RESTORE : String :=
  "sudo timeshift --restore --snapshot-device /dev/sda1 --scripted"

def CMD_REINSTALL : String :=
  "sudo apt install --reinstall $(cat /tmp/package_list_*.txt | awk '\x7bprint $1\x7d')"

/-- The literal the source's failed-service filter tests with
`line.startswith(...)`: the two characters U+00E2 and U+2014 (a mojibake
rendering of the `systemctl` bullet). -/
def SERVICE_MARKER : String := "â—"

/-- The marker whose presence in the uppercased LLM response classifies the
system as healthy. -/
def HEALTH_MARKER : String := "HEALTH_STATUS: HEALTHY"

/-- The placeholder default of the `ANTHROPIC_API_KEY` environment
variable. -/
def API_KEY_PLACEHOLDER : String := "your-api-key-here"

/-! ### Snapshot creation (`create_snapshot`, lines 64-92) -/

/-- Result of `create_snapshot`: the value of the `snapshot_created` flag
afterwards, the returned boolean, and the commands executed in order. -/
structure SnapshotRun where
  flag : Bool
  ret : Bool
  cmds : List String
deriving DecidableEq, Repr

/-- Embedding of `SystemUpdateAgent.create_snapshot`: probe for timeshift;
if present, try the snapshot command and on success set the flag and return
true; otherwise fall back to the package-selection backup write, whose
success also sets the flag; if both fail the flag stays false and false is
returned. -/
def create_snapshot (snapshotName : String) (env : CmdEnv) : SnapshotRun :=
  let which := CMD_WHICH_TIMESHIFT
  let ts := tsCreateCmd snapshotName
  let backup := pkgBackupCmd snapshotName
  if exitCodeOf env which = 0 then
    if exitCodeOf env ts = 0 then
      { flag := true, ret := true, cmds := [which, ts] }
    else if exitCodeOf env backup = 0 then
      { flag := true, ret := true, cmds := [which, ts, backup] }
    else
      { flag := false, ret := false, cmds := [which, ts, backup] }
  else if exitCodeOf env backup = 0 then
    { flag := true, ret := true, cmds := [which, backup] }
  else
    { flag := false, ret := false, cmds := [which, backup] }

/-! ### Update phase (`update_system`, lines 94-129) -/

/-- Embedding of `SystemUpdateAgent.update_system`: apt update, apt upgrade
and apt full-upgrade in order, aborting with `false` on the first non-zero
exit code; on success the two cleanup commands run with their results
discarded and `true` is returned.  The second component records the
commands executed, in order. -/
def update_system (env : CmdEnv) : Bool × List String :=
  let r1 := run_command env CMD_APT_UPDATE
  if r1.1 ≠ 0 then (false, [CMD_APT_UPDATE])
  else
    let r2 := run_command env CMD_APT_UPGRADE
    if r2.1 ≠ 0 then (false, [CMD_APT_UPDATE, CMD_APT_UPGRADE])
    else
      let r3 := run_command env CMD_APT_FULL_UPGRADE
      if r3.1 ≠ 0 then (false, [CMD_APT_UPDATE, CMD_APT_UPGRADE, CMD_APT_FULL_UPGRADE])
      else
        let _r4 := run_command env CMD_AUTOREMOVE
        let _r5 := run_command env CMD_AUTOCLEAN
        (true, [CMD_APT_UPDATE, CMD_APT_UPGRADE, CMD_APT_FULL_UPGRADE,
                CMD_AUTOREMOVE, CMD_AUTOCLEAN])

/-! ### Health information (`collect_system_info`, lines 131-168) -/

/-- The dictionary built by `collect_system_info`. -/
structure SystemInfo where
  os_version : String
  kernel : String
  disk_usage : String
  memory : String
  running_services : Int
  failed_services : List String
  broken_packages : String
  network : String
deriving DecidableEq, Repr

/-- Line 153: `len(out.strip().split('\n')) - 2`. -/
def runningServicesOf (out : String) : Int :=
  ((pySplitNl (pyStrip out)).length : Int) - 2

/-- Lines 157-158: first token of every non-blank line of the stripped
output that does not start with `SERVICE_MARKER`. -/
def failedServicesOf (out : String) : List String :=
  let failed := pySplitNl (pyStrip out)
  (failed.filter fun line =>
      !(stripChars line.data).isEmpty && !(SERVICE_MARKER.data.isPrefixOf line.data)).map
    fun line => firstToken line.data

/-- Line 162: `out.strip() if out.strip() else "None"`. -/
def brokenPackagesOf (out : String) : String :=
  if pyStrip out = "" then "None" else pyStrip out

/-- Line 166: `"OK" if code == 0 else "FAILED"`. -/
def networkOf (code : Int) : String :=
  if code = 0 then "OK" else "FAILED"

/-- Embedding of `SystemUpdateAgent.collect_system_info`: the eight fixed
probes, each consuming the stdout (or the exit code, for the ping) that the
environment assigns to its command string. -/
def collect_system_info (env : CmdEnv) : SystemInfo :=
  { os_version := pyStrip (stdoutOf env CMD_LSB_RELEASE)
  , kernel := pyStrip (stdoutOf env CMD_UNAME)
  , disk_usage := pyStrip (stdoutOf env CMD_DF)
  , memory := pyStrip (stdoutOf env CMD_FREE)
  , running_services := runningServicesOf (stdoutOf env CMD_RUNNING_SERVICES)
  , failed_services := failedServicesOf (stdoutOf env CMD_FAILED_SERVICES)
  , broken_packages := brokenPackagesOf (stdoutOf env CMD_BROKEN_PACKAGES)
  , network := networkOf (exitCodeOf env CMD_PING) }

/-! ### Health checks (`perform_health_checks`, lines 170-213) -/

/-- Outcome of the `self.llm.invoke` call: either a response with its
content text, or any exception (network error, auth error, malformed
response). -/
inductive LLMOutcome where
  | success (content : String)
  | failure (errMsg : String)
deriving DecidableEq, Repr

/-- Lines 208-212: the deterministic fallback rule used when the LLM call
raises.  Note the third conjunct is a substring test (`"None" in ...`), not
an equality. -/
def basicHealthCheck (info : SystemInfo) : Bool :=
  (info.failed_services.length == 0) && (info.network == "OK") &&
    pyContains info.broken_packages "None"

/-- Embedding of `SystemUpdateAgent.perform_health_checks`: collect system
info, then either parse the LLM response by the substring test
`"HEALTH_STATUS: HEALTHY" in analysis.upper()`, or fall back to
`basicHealthCheck` when the call raised. -/
def perform_health_checks (env : CmdEnv) (llm : LLMOutcome) : Bool × String :=
  let info := collect_system_info env
  match llm with
  | .success analysis => (pyContains (pyUpper analysis) HEALTH_MARKER, analysis)
  | .failure _ => (basicHealthCheck info, "Basic health check completed (LLM unavailable)")

/-! ### Rollback (`rollback_system`, lines 215-243) -/

/-- Embedding of `SystemUpdateAgent.rollback_system`.  First component: the
returned boolean.  Second component: whether execution went past the
no-snapshot guard, i.e. whether any restore action was attempted. -/
def rollback_system (snapshot_created : Bool) (env : CmdEnv) : Bool × Bool :=
  if snapshot_created = false then (false, false)
  else if exitCodeOf env CMD_WHICH_TIMESHIFT = 0 then
    if exitCodeOf env CMD_TS_RESTORE = 0 then (true, true)
    else ((exitCodeOf env CMD_REINSTALL == 0), true)
  else ((exitCodeOf env CMD_REINSTALL == 0), true)

/-! ### Workflow (`run_update_workflow`, lines 245-286) -/

/-- Per-run external behaviour: the run's snapshot name, one command
environment per phase of the workflow (the phases run at different times,
so the same command may behave differently across them), and the LLM call
outcome for the health check. -/
structure WorkflowEnv where
  snapshotName : String
  snapEnv : CmdEnv
  preEnv : CmdEnv
  updEnv : CmdEnv
  healthEnv : CmdEnv
  llm : LLMOutcome
  rbEnv : CmdEnv

/-- Observable trace of one workflow run.  `healthVerdict` is `none` when
the health check is never reached, `some b` when it returns verdict `b`.
`rollbackCalled` records that the workflow called `rollback_system`;
`rollbackPerformed` records that the call went past its no-snapshot
guard. -/
structure WTrace where
  snapshotFlag : Bool
  updateOk : Bool
  updateCmds : List String
  healthVerdict : Option Bool
  rollbackCalled : Bool
  rollbackPerformed : Bool
deriving DecidableEq, Repr

/-- Embedding of `SystemUpdateAgent.run_update_workflow`: snapshot, pre-info,
update, health check, with rollback on update failure (only under the flag)
and on an unhealthy verdict (unconditionally).  Returns the overall boolean
together with the run trace. -/
def run_update_workflow (w : WorkflowEnv) : Bool × WTrace :=
  let s := create_snapshot w.snapshotName w.snapEnv
  let _pre := collect_system_info w.preEnv
  let u := update_system w.updEnv
  if u.1 = false then
    let rb := if s.flag then some (rollback_system s.flag w.rbEnv) else none
    (false,
      { snapshotFlag := s.flag, updateOk := false, updateCmds := u.2,
        healthVerdict := none, rollbackCalled := s.flag,
        rollbackPerformed := (rb.map Prod.snd).getD false })
  else
    let h := perform_health_checks w.healthEnv w.llm
    if h.1 = false then
      let rb := rollback_system s.flag w.rbEnv
      (false,
        { snapshotFlag := s.flag, updateOk := true, updateCmds := u.2,
          healthVerdict := some false, rollbackCalled := true,
          rollbackPerformed := rb.2 })
    else
      (true,
        { snapshotFlag := s.flag, updateOk := true, updateCmds := u.2,
          healthVerdict := some true, rollbackCalled := false,
          rollbackPerformed := false })

/-! ### Entry point (`main`, lines 289-313) -/

/-- How the guarded call to `run_update_workflow` ends when the
preconditions pass: normal completion (driven by a `WorkflowEnv`), a
`KeyboardInterrupt`, or any other exception. -/
inductive RunBehavior where
  | normal (w : WorkflowEnv)
  | interrupted
  | raised (msg : String)

/-- Observable result of the process: its exit code, whether the update
workflow was ever entered (hence whether any system change could happen),
and the console messages printed by the precondition checks. -/
structure MainResult where
  exit_code : Int
  ranWorkflow : Bool
  messages : List String
deriving DecidableEq, Repr

/-- Messages printed when not running as root (lines 293-294). -/
def MSG_ROOT : List String :=
  ["This script must be run as root or with sudo",
   "Usage: sudo python3 ubuntu_update_agent.py"]

/-- Messages printed when the API key is missing (lines 299-300). -/
def MSG_KEY : List String :=
  ["Please set ANTHROPIC_API_KEY environment variable",
   "export ANTHROPIC_API_KEY='your-key-here'"]

/-- Embedding of `main`: the root check, then the API-key check (the
variable read defaults to the placeholder when unset; both precondition
failures `return`, ending the process with exit code 0 and no workflow),
then the workflow guarded by the exception handlers, exiting 0 on success
and 1 on failure, interruption or any other exception. -/
def main (euid : Int) (apiKeyVar : Option String) (behavior : RunBehavior) : MainResult :=
  if euid ≠ 0 then
    { exit_code := 0, ranWorkflow := false, messages := MSG_ROOT }
  else if apiKeyVar.getD API_KEY_PLACEHOLDER = API_KEY_PLACEHOLDER then
    { exit_code := 0, ranWorkflow := false, messages := MSG_KEY }
  else
    match behavior with
    | .normal w =>
      { exit_code := if (run_update_workflow w).1 then 0 else 1,
        ranWorkflow := true, messages := [] }
    | .interrupted => { exit_code := 1, ranWorkflow := true, messages := [] }
    | .raised _ => { exit_code := 1, ranWorkflow := true, messages := [] }

/-! ### Concrete environments used to instantiate the theorems -/

/-- Every command completes with exit code 0 and empty output. -/
def envAllOk : CmdEnv := fun _ => .completed 0 "" ""

/-- Every command completes with exit code 1 and empty output. -/
def envAllFail : CmdEnv := fun _ => .completed 1 "" ""

/-- Only the package-index refresh fails. -/
def envAptUpdateFails : CmdEnv := fun c =>
  if c = CMD_APT_UPDATE then .completed 100 "" "mirror unreachable"
  else .completed 0 "" ""

/-- The two cleanup commands fail; everything else succeeds. -/
def envCleanupFails : CmdEnv := fun c =>
  if c = CMD_AUTOREMOVE then .completed 1 "" "held packages"
  else if c = CMD_AUTOCLEAN then .completed 2 "" "lock"
  else .completed 0 "" ""

/-- Timeshift is absent; the package-selection backup write succeeds. -/
def envNoTimeshift : CmdEnv := fun c =>
  if c = CMD_WHICH_TIMESHIFT then .completed 1 "" ""
  else .completed 0 "" ""

/-- One failed service unit is reported; every other probe is clean. -/
def envFailedUnit : CmdEnv := fun c =>
  if c = CMD_FAILED_SERVICES then
    .completed 0 "cron.service loaded failed failed Regular background program daemon" ""
  else .completed 0 "" ""

/-- The broken-package probe reports a line that contains `None` as a
substring without being the `"None"` sentinel; the other probes are
clean. -/
def envBrokenNone : CmdEnv := fun c =>
  if c = CMD_BROKEN_PACKAGES then .completed 0 "rc libfooNone 1.2-3 amd64 removed" ""
  else .completed 0 "" ""

/-- The failed-services probe prints two marker lines around a blank line;
the other probes are clean. -/
def envMarkerAndBlank : CmdEnv := fun c =>
  if c = CMD_FAILED_SERVICES then
    .completed 0 (SERVICE_MARKER ++ "x\n \n" ++ SERVICE_MARKER ++ "y") ""
  else .completed 0 "" ""

/-- The failed-services probe prints only a header and a summary line. -/
def envHeaderLines : CmdEnv := fun c =>
  if c = CMD_FAILED_SERVICES then
    .completed 0 "UNIT LOAD ACTIVE SUB DESCRIPTION\n0 loaded units listed." ""
  else .completed 0 "" ""

/-- A run in which snapshot creation fails on both paths, the update
succeeds, and the fallback health check then sees a failed unit. -/
def wNoSnapUnhealthy : WorkflowEnv :=
  { snapshotName := "pre_update_20250101_120000", snapEnv := envAllFail,
    preEnv := envAllOk, updEnv := envAllOk, healthEnv := envFailedUnit,
    llm := .failure "Connection error", rbEnv := envAllOk }

/-- A run in which the snapshot succeeds and the package-index refresh
fails. -/
def wUpdateFails : WorkflowEnv :=
  { snapshotName := "pre_update_20250101_120000", snapEnv := envAllOk,
    preEnv := envAllOk, updEnv := envAptUpdateFails, healthEnv := envAllOk,
    llm := .failure "Connection error", rbEnv := envAllOk }

/-- A fully healthy run: snapshot, update and health check all succeed. -/
def wHealthy : WorkflowEnv :=
  { snapshotName := "pre_update_20250101_120000", snapEnv := envAllOk,
    preEnv := envAllOk, updEnv := envAllOk, healthEnv := envAllOk,
    llm := .success "1. HEALTH_STATUS: HEALTHY\n2. ISSUES: None\n3. RECOMMENDATION: none",
    rbEnv := envAllOk }

/-! ### Supporting lemmas -/

/-- Characterisation of `List.isPrefixOf` by an explicit suffix. -/
theorem isPrefixOf_spec (l₁ : List Char) : ∀ l₂ : List Char,
    l₁.isPrefixOf l₂ = true ↔ ∃ t, l₁ ++ t = l₂ := by
  induction l₁ with
  | nil =>
    intro l₂
    simp [List.isPrefixOf]
  | cons a as ih =>
    intro l₂
    cases l₂ with
    | nil => simp [List.isPrefixOf]
    | cons b bs =>
      simp only [List.cons_append, List.cons.injEq]
      rw [show (a :: as).isPrefixOf (b :: bs) = ((a == b) && as.isPrefixOf bs) from rfl]
      simp only [Bool.and_eq_true, beq_iff_eq, ih bs]
      constructor
      · rintro ⟨hab, t, ht⟩
        exact ⟨t, hab, ht⟩
      · rintro ⟨t, hab, ht⟩
        exact ⟨hab, t, ht⟩

/-- Characterisation of `hasSublist` by explicit surrounding context: it is
true exactly when the pattern occurs contiguously inside the list. -/
theorem hasSublist_spec (pat : List Char) : ∀ l : List Char,
    hasSublist pat l = true ↔ ∃ s t, s ++ pat ++ t = l := by
  intro l
  induction l with
  | nil =>
    simp only [hasSublist, List.isEmpty_iff]
    constructor
    · rintro rfl
      exact ⟨[], [], rfl⟩
    · rintro ⟨s, t, h⟩
      rcases List.append_eq_nil.mp h with ⟨h1, h2⟩
      exact (List.append_eq_nil.mp h1).2
  | cons c rest ih =>
    simp only [hasSublist, Bool.or_eq_true, isPrefixOf_spec, ih]
    constructor
    · rintro (⟨t, ht⟩ | ⟨s, t, h⟩)
      · exact ⟨[], t, by simpa using ht⟩
      · exact ⟨c :: s, t, by simp [← h]⟩
    · rintro ⟨s, t, h⟩
      cases s with
      | nil =>
        exact Or.inl ⟨t, by simpa using h⟩
      | cons x xs =>
        simp only [List.cons_append, List.cons.injEq] at h
        exact Or.inr ⟨xs, t, h.2⟩

/-- Past its guard, `rollback_system` always attempts a restore action: its
performed flag equals the snapshot flag it was called with. -/
theorem rollback_snd (flag : Bool) (env : CmdEnv) :
    (rollback_system flag env).2 = flag := by
  cases flag with
  | false => rfl
  | true =>
    unfold rollback_system
    rw [if_neg (by simp)]
    split
    · split <;> rfl
    · rfl

/-- The update phase always executes at least the package-index refresh. -/
theorem update_system_cmds_ne_nil (env : CmdEnv) : (update_system env).2 ≠ [] := by
  unfold update_system
  dsimp only
  split
  · simp
  · split
    · simp
    · split <;> simp

/-- The trace's update-command list is exactly what `update_system`
executed, in every branch of the workflow. -/
theorem workflow_updateCmds (w : WorkflowEnv) :
    (run_update_workflow w).2.updateCmds = (update_system w.updEnv).2 := by
  cases hu : (update_system w.updEnv).1 <;>
    cases hh : (perform_health_checks w.healthEnv w.llm).1 <;>
      simp [run_update_workflow, hu, hh]

/-- Unfolding of the deterministic fallback health rule into its three
conditions, with the third spelled out as substring containment. -/
theorem basicHealthCheck_iff (info : SystemInfo) :
    basicHealthCheck info = true ↔
      info.failed_services = [] ∧ info.network = "OK" ∧
        ∃ s t, s ++ "None".data ++ t = info.broken_packages.data := by
  simp [basicHealthCheck, pyContains, hasSublist_spec, List.length_eq_zero, and_assoc]

/-! ### Claim C1 -/

/-- Claim C1, counterexample: in the run `wNoSnapUnhealthy` the
snapshot/backup flag is false (both snapshot paths failed), the update
succeeds and the health check reports unhealthy — and the workflow then
calls `rollback_system` anyway, so rollback is invoked with the flag
false, contradicting the claim's "rollback is never invoked when the flag
is false". -/
theorem c1_rollback_called_without_flag :
    (run_update_workflow wNoSnapUnhealthy).2.snapshotFlag = false ∧
    (run_update_workflow wNoSnapUnhealthy).2.updateOk = true ∧
    (run_update_workflow wNoSnapUnhealthy).2.healthVerdict = some false ∧
    (run_update_workflow wNoSnapUnhealthy).2.rollbackCalled = true := by
  decide

/-- Claim C1, amended: rollback actions are performed (the call passes the
no-snapshot guard) if and only if the snapshot/backup flag is true AND
(the update failed OR the health check reported unhealthy); the rollback
function itself is additionally called, as a no-op that fails its guard,
on the unhealthy path even when the flag is false, while on the
update-failure path it is called only under the flag; and rollback actions
are never performed when the flag is false. -/
theorem c1_rollback_iff (w : WorkflowEnv) :
    ((run_update_workflow w).2.rollbackPerformed =
      ((run_update_workflow w).2.snapshotFlag &&
        (!(run_update_workflow w).2.updateOk ||
          (run_update_workflow w).2.healthVerdict == some false))) ∧
    ((run_update_workflow w).2.rollbackCalled =
      (((run_update_workflow w).2.snapshotFlag && !(run_update_workflow w).2.updateOk) ||
        ((run_update_workflow w).2.healthVerdict == some false))) ∧
    ((run_update_workflow w).2.snapshotFlag = false →
      (run_update_workflow w).2.rollbackPerformed = false) := by
  cases hu : (update_system w.updEnv).1 with
  | false =>
    cases hf : (create_snapshot w.snapshotName w.snapEnv).flag <;>
      simp [run_update_workflow, hu, hf, rollback_snd]
  | true =>
    cases hh : (perform_health_checks w.healthEnv w.llm).1 <;>
      cases hf : (create_snapshot w.snapshotName w.snapEnv).flag <;>
        simp [run_update_workflow, hu, hh, hf, rollback_snd]

/-- Claim C1, witness for the amended theorem: with the flag false and an
unhealthy verdict no rollback action is performed, while with the flag
true and a failed update the rollback actions are performed. -/
theorem c1_rollback_iff_witness :
    (run_update_workflow wNoSnapUnhealthy).2.rollbackPerformed = false ∧
    (run_update_workflow wUpdateFails).2.rollbackPerformed = true := by
  constructor
  · exact (c1_rollback_iff wNoSnapUnhealthy).2.2 (by decide)
  · rw [(c1_rollback_iff wUpdateFails).1]
    decide

/-! ### Claim C2 -/

/-- Claim C2, counterexample: under `envBrokenNone` the LLM-failure
fallback reports healthy although the broken-package summary is not equal
to the sentinel `"None"` (it merely contains it), refuting the claimed
equivalence with equality and the claim that changing that condition flips
the verdict. -/
theorem c2_substring_counterexample :
    (perform_health_checks envBrokenNone (.failure "Connection error")).1 = true ∧
    (collect_system_info envBrokenNone).failed_services = [] ∧
    (collect_system_info envBrokenNone).network = "OK" ∧
    (collect_system_info envBrokenNone).broken_packages ≠ "None" := by
  decide

/-- Claim C2, amended: when the LLM call fails, the fallback verdict is
healthy iff the collected failed-service list is empty AND the network
probe status is `"OK"` AND the string `"None"` occurs as a substring of
the broken-package summary (not: equals it). -/
theorem c2_fallback_iff (env : CmdEnv) (errMsg : String) :
    (perform_health_checks env (.failure errMsg)).1 = true ↔
      (collect_system_info env).failed_services = [] ∧
      (collect_system_info env).network = "OK" ∧
      ∃ s t, s ++ "None".data ++ t = (collect_system_info env).broken_packages.data :=
  basicHealthCheck_iff (collect_system_info env)

/-- Claim C2, witness for the amended theorem: with clean probes the
broken-package summary is the sentinel itself and the fallback verdict is
healthy. -/
theorem c2_fallback_iff_witness :
    (perform_health_checks envAllOk (.failure "Connection error")).1 = true :=
  (c2_fallback_iff envAllOk "Connection error").mpr
    ⟨by decide, by decide, [], [], by decide⟩

/-! ### Claim C3 -/

/-- Claim C3: the update phase runs the package-index refresh, the
standard upgrade and the full upgrade in strict order; the first non-zero
exit code among them aborts the phase immediately, skipping the remaining
steps including the cleanup commands, and the phase succeeds exactly when
all three exit with 0 — the two cleanup commands' exit codes never affect
the result. -/
theorem c3_update_order (env : CmdEnv) :
    ((update_system env).1 = true ↔
      exitCodeOf env CMD_APT_UPDATE = 0 ∧ exitCodeOf env CMD_APT_UPGRADE = 0 ∧
        exitCodeOf env CMD_APT_FULL_UPGRADE = 0) ∧
    (exitCodeOf env CMD_APT_UPDATE ≠ 0 →
      (update_system env).2 = [CMD_APT_UPDATE]) ∧
    (exitCodeOf env CMD_APT_UPDATE = 0 → exitCodeOf env CMD_APT_UPGRADE ≠ 0 →
      (update_system env).2 = [CMD_APT_UPDATE, CMD_APT_UPGRADE]) ∧
    (exitCodeOf env CMD_APT_UPDATE = 0 → exitCodeOf env CMD_APT_UPGRADE = 0 →
      exitCodeOf env CMD_APT_FULL_UPGRADE ≠ 0 →
      (update_system env).2 = [CMD_APT_UPDATE, CMD_APT_UPGRADE, CMD_APT_FULL_UPGRADE]) ∧
    (exitCodeOf env CMD_APT_UPDATE = 0 → exitCodeOf env CMD_APT_UPGRADE = 0 →
      exitCodeOf env CMD_APT_FULL_UPGRADE = 0 →
      (update_system env).2 = [CMD_APT_UPDATE, CMD_APT_UPGRADE, CMD_APT_FULL_UPGRADE,
        CMD_AUTOREMOVE, CMD_AUTOCLEAN]) := by
  simp only [exitCodeOf]
  by_cases h1 : (run_command env CMD_APT_UPDATE).1 = 0 <;>
    by_cases h2 : (run_command env CMD_APT_UPGRADE).1 = 0 <;>
      by_cases h3 : (run_command env CMD_APT_FULL_UPGRADE).1 = 0 <;>
        simp [update_system, h1, h2, h3]

/-- Claim C3, witness: a failing index refresh aborts the phase with only
that command executed, while failing cleanup commands leave the phase
successful. -/
theorem c3_update_order_witness :
    (update_system envAptUpdateFails).1 = false ∧
    (update_system envAptUpdateFails).2 = [CMD_APT_UPDATE] ∧
    (update_system envCleanupFails).1 = true := by
  refine ⟨?_, ?_, ?_⟩
  · have hne : (update_system envAptUpdateFails).1 ≠ true := by
      intro ht
      exact absurd ((c3_update_order envAptUpdateFails).1.mp ht).1 (by decide)
    simpa using hne
  · exact (c3_update_order envAptUpdateFails).2.1 (by decide)
  · exact (c3_update_order envCleanupFails).1.mpr (by decide)

/-! ### Claim C4 -/

/-- Claim C4: on the update-failure path the workflow returns failure and
the health check is never reached, on the unhealthy path it returns
failure, and the overall result never depends on the rollback phase's
command environment — i.e. on whether rollback succeeds or fails. -/
theorem c4_failure_paths (w : WorkflowEnv) (rb1 rb2 : CmdEnv) :
    ((run_update_workflow w).2.updateOk = false →
      (run_update_workflow w).1 = false ∧
        (run_update_workflow w).2.healthVerdict = none) ∧
    ((run_update_workflow w).2.healthVerdict = some false →
      (run_update_workflow w).1 = false) ∧
    ((run_update_workflow { w with rbEnv := rb1 }).1 =
      (run_update_workflow { w with rbEnv := rb2 }).1) := by
  cases hu : (update_system w.updEnv).1 <;>
    cases hh : (perform_health_checks w.healthEnv w.llm).1 <;>
      simp [run_update_workflow, hu, hh]

/-- Claim C4, witness: a failed update yields overall failure with no
health verdict, and an unhealthy verdict yields overall failure. -/
theorem c4_failure_paths_witness :
    (run_update_workflow wUpdateFails).1 = false ∧
    (run_update_workflow wUpdateFails).2.healthVerdict = none ∧
    (run_update_workflow wNoSnapUnhealthy).1 = false := by
  refine ⟨?_, ?_, ?_⟩
  · exact ((c4_failure_paths wUpdateFails envAllOk envAllOk).1 (by decide)).1
  · exact ((c4_failure_paths wUpdateFails envAllOk envAllOk).1 (by decide)).2
  · exact (c4_failure_paths wNoSnapUnhealthy envAllOk envAllOk).2.1 (by decide)

/-! ### Claim C5 -/

/-- Claim C5: `run_command` is a total function of the command's outcome —
it never propagates an exception: on normal completion it returns the
command's (exit code, stdout, stderr) triple, and on a timeout or any
other execution fault it returns the sentinel exit code -1, an empty
stdout, and an error-marker string as stderr. -/
theorem c5_run_command_total (env : CmdEnv) (command : String) :
    (∀ code out err, env command = .completed code out err →
      run_command env command = (code, out, err)) ∧
    (env command = .timedOut →
      run_command env command = (-1, "", "Command timeout")) ∧
    (∀ msg, env command = .fault msg →
      run_command env command = (-1, "", msg)) := by
  refine ⟨?_, ?_, ?_⟩ <;> intros <;> simp [run_command, *]

/-- Claim C5, witness: a command that times out yields the sentinel triple,
and one that completes yields its own triple. -/
theorem c5_run_command_total_witness :
    run_command (fun _ => .timedOut) CMD_APT_UPDATE = (-1, "", "Command timeout") ∧
    run_command envAllOk CMD_APT_UPDATE = (0, "", "") :=
  ⟨(c5_run_command_total (fun _ => .timedOut) CMD_APT_UPDATE).2.1 rfl,
   (c5_run_command_total envAllOk CMD_APT_UPDATE).1 0 "" "" rfl⟩

/-! ### Claim C6 -/

/-- Claim C6: when run without root privileges, or with the credential
variable unset or left at the placeholder, the process stops immediately
with an explanatory message and without entering the workflow (hence with
no system changes); once both preconditions pass, the exit code is 0
exactly on overall workflow success and 1 on any failure, interruption or
unexpected exception. -/
theorem c6_main_gatekeeping (euid : Int) (apiKeyVar : Option String) (b : RunBehavior) :
    (euid ≠ 0 →
      main euid apiKeyVar b = { exit_code := 0, ranWorkflow := false, messages := MSG_ROOT }) ∧
    (euid = 0 → apiKeyVar.getD API_KEY_PLACEHOLDER = API_KEY_PLACEHOLDER →
      main euid apiKeyVar b = { exit_code := 0, ranWorkflow := false, messages := MSG_KEY }) ∧
    (euid = 0 → apiKeyVar.getD API_KEY_PLACEHOLDER ≠ API_KEY_PLACEHOLDER →
      (main euid apiKeyVar b).ranWorkflow = true ∧
      (main euid apiKeyVar b).exit_code =
        (match b with
         | .normal w => if (run_update_workflow w).1 then 0 else 1
         | .interrupted => 1
         | .raised _ => 1)) := by
  refine ⟨?_, ?_, ?_⟩
  · intro h
    simp [main, h]
  · intro h hk
    simp [main, h, hk]
  · intro h hk
    cases b <;> simp [main, h, hk]

/-- Claim C6, witness: a non-root caller and a placeholder key both stop
before the workflow with exit code 0 and a message; with the
preconditions met, an interruption exits 1 and the healthy run exits 0. -/
theorem c6_main_gatekeeping_witness :
    main 1000 none RunBehavior.interrupted =
      { exit_code := 0, ranWorkflow := false, messages := MSG_ROOT } ∧
    main 0 (some API_KEY_PLACEHOLDER) RunBehavior.interrupted =
      { exit_code := 0, ranWorkflow := false, messages := MSG_KEY } ∧
    (main 0 (some "sk-ant-test") RunBehavior.interrupted).exit_code = 1 ∧
    (main 0 (some "sk-ant-test") (RunBehavior.normal wHealthy)).exit_code = 0 ∧
    (main 0 (some "sk-ant-test") (RunBehavior.normal wUpdateFails)).exit_code = 1 := by
  refine ⟨?_, ?_, ?_, ?_, ?_⟩
  · exact (c6_main_gatekeeping 1000 none RunBehavior.interrupted).1 (by decide)
  · exact (c6_main_gatekeeping 0 (some API_KEY_PLACEHOLDER) RunBehavior.interrupted).2.1
      rfl (by decide)
  · have h := (c6_main_gatekeeping 0 (some "sk-ant-test") RunBehavior.interrupted).2.2
      rfl (by decide)
    exact h.2
  · have h := (c6_main_gatekeeping 0 (some "sk-ant-test")
      (RunBehavior.normal wHealthy)).2.2 rfl (by decide)
    have h2 : (main 0 (some "sk-ant-test") (RunBehavior.normal wHealthy)).exit_code =
        if (run_update_workflow wHealthy).1 then 0 else 1 := h.2
    rw [h2, if_pos (show (run_update_workflow wHealthy).1 = true by decide)]
  · have h := (c6_main_gatekeeping 0 (some "sk-ant-test")
      (RunBehavior.normal wUpdateFails)).2.2 rfl (by decide)
    have h2 : (main 0 (some "sk-ant-test") (RunBehavior.normal wUpdateFails)).exit_code =
        if (run_update_workflow wUpdateFails).1 then 0 else 1 := h.2
    rw [h2, if_neg (show ¬(run_update_workflow wUpdateFails).1 = true by decide)]

/-! ### Claim C7 -/

/-- Claim C7: on the language-model path the verdict is healthy if and
only if the uppercased response text contains the marker
`"HEALTH_STATUS: HEALTHY"` as a contiguous substring; any response whose
uppercasing does not contain the marker is classified unhealthy. -/
theorem c7_llm_marker_iff (env : CmdEnv) (analysis : String) :
    (perform_health_checks env (.success analysis)).1 = true ↔
      ∃ s t, s ++ HEALTH_MARKER.data ++ t = (pyUpper analysis).data :=
  hasSublist_spec HEALTH_MARKER.data (pyUpper analysis).data

/-- Claim C7, witness: a response carrying the marker in lower case is
classified healthy, the uppercased text containing the marker. -/
theorem c7_llm_marker_iff_witness :
    (perform_health_checks envAllOk (.success "1. health_status: healthy")).1 = true :=
  (c7_llm_marker_iff envAllOk "1. health_status: healthy").mpr
    ⟨"1. ".data, [], by decide⟩

/-! ### Claim C8 -/

/-- Claim C8: the snapshot flag becomes true exactly when the
timeshift-present-and-create path succeeded or the fallback
package-selection backup write exited 0; `create_snapshot` returns
precisely the flag; whenever the tool is absent or its snapshot command
fails the fallback write is attempted; and regardless of the snapshot
outcome the workflow proceeds to the update phase. -/
theorem c8_snapshot_flag (snapshotName : String) (env : CmdEnv) (w : WorkflowEnv) :
    ((create_snapshot snapshotName env).ret = (create_snapshot snapshotName env).flag) ∧
    ((create_snapshot snapshotName env).flag = true ↔
      (exitCodeOf env CMD_WHICH_TIMESHIFT = 0 ∧
        exitCodeOf env (tsCreateCmd snapshotName) = 0) ∨
        exitCodeOf env (pkgBackupCmd snapshotName) = 0) ∧
    ((exitCodeOf env CMD_WHICH_TIMESHIFT ≠ 0 ∨
        exitCodeOf env (tsCreateCmd snapshotName) ≠ 0) →
      pkgBackupCmd snapshotName ∈ (create_snapshot snapshotName env).cmds) ∧
    ((run_update_workflow w).2.updateCmds ≠ []) := by
  refine ⟨?_, ?_, ?_, ?_⟩
  · by_cases hw : exitCodeOf env CMD_WHICH_TIMESHIFT = 0 <;>
      by_cases ht : exitCodeOf env (tsCreateCmd snapshotName) = 0 <;>
        by_cases hb : exitCodeOf env (pkgBackupCmd snapshotName) = 0 <;>
          simp [create_snapshot, hw, ht, hb]
  · by_cases hw : exitCodeOf env CMD_WHICH_TIMESHIFT = 0 <;>
      by_cases ht : exitCodeOf env (tsCreateCmd snapshotName) = 0 <;>
        by_cases hb : exitCodeOf env (pkgBackupCmd snapshotName) = 0 <;>
          simp [create_snapshot, hw, ht, hb]
  · intro h
    by_cases hw : exitCodeOf env CMD_WHICH_TIMESHIFT = 0 <;>
      by_cases ht : exitCodeOf env (tsCreateCmd snapshotName) = 0 <;>
        by_cases hb : exitCodeOf env (pkgBackupCmd snapshotName) = 0 <;>
          simp_all [create_snapshot]
  · rw [workflow_updateCmds]
    exact update_system_cmds_ne_nil w.updEnv

/-- Claim C8, witness: with timeshift absent the fallback write is
attempted and sets the flag, and a workflow run with both snapshot paths
failing still executes update commands. -/
theorem c8_snapshot_flag_witness :
    (create_snapshot "pre_update_20250101_120000" envNoTimeshift).flag = true ∧
    pkgBackupCmd "pre_update_20250101_120000" ∈
      (create_snapshot "pre_update_20250101_120000" envNoTimeshift).cmds ∧
    (run_update_workflow wNoSnapUnhealthy).2.updateCmds ≠ [] := by
  refine ⟨?_, ?_, ?_⟩
  · exact (c8_snapshot_flag "pre_update_20250101_120000" envNoTimeshift wHealthy).2.1.mpr
      (by decide)
  · exact (c8_snapshot_flag "pre_update_20250101_120000" envNoTimeshift wHealthy).2.2.1
      (by decide)
  · exact (c8_snapshot_flag "pre_update_20250101_120000" envNoTimeshift
      wNoSnapUnhealthy).2.2.2

/-! ### Claim C9 -/

/-- Claim C9: the running-service count is the number of newline-separated
lines of the stripped probe output minus 2, so with fewer than three lines
the recorded count is zero or negative, and it is -1 when the stripped
output is empty. -/
theorem c9_running_count (env : CmdEnv) :
    ((collect_system_info env).running_services =
      ((pySplitNl (pyStrip (stdoutOf env CMD_RUNNING_SERVICES))).length : Int) - 2) ∧
    ((pySplitNl (pyStrip (stdoutOf env CMD_RUNNING_SERVICES))).length < 3 →
      (collect_system_info env).running_services ≤ 0) ∧
    (pyStrip (stdoutOf env CMD_RUNNING_SERVICES) = "" →
      (collect_system_info env).running_services = -1) := by
  refine ⟨rfl, ?_, ?_⟩
  · intro h
    show ((pySplitNl (pyStrip (stdoutOf env CMD_RUNNING_SERVICES))).length : Int) - 2 ≤ 0
    omega
  · intro h
    show ((pySplitNl (pyStrip (stdoutOf env CMD_RUNNING_SERVICES))).length : Int) - 2 = -1
    rw [h]
    decide

/-- Claim C9, witness: with an empty probe output the recorded count is
-1 (in particular not positive). -/
theorem c9_running_count_witness :
    (collect_system_info envAllOk).running_services ≤ 0 ∧
    (collect_system_info envAllOk).running_services = -1 :=
  ⟨(c9_running_count envAllOk).2.1 (by decide),
   (c9_running_count envAllOk).2.2 (by decide)⟩

/-! ### Claim C10 -/

/-- Claim C10, counterexample: a non-empty failed-services probe output
whose lines do not all start with the marker (its middle line is a blank
line) for which the computed failed-service list is nevertheless empty,
refuting the claimed non-emptiness. -/
theorem c10_marker_blank_counterexample :
    stdoutOf envMarkerAndBlank CMD_FAILED_SERVICES ≠ "" ∧
    ((pySplitNl (pyStrip (stdoutOf envMarkerAndBlank CMD_FAILED_SERVICES))).any
      fun line => !(SERVICE_MARKER.data.isPrefixOf line.data)) = true ∧
    (collect_system_info envMarkerAndBlank).failed_services = [] := by
  decide

/-- Claim C10, amended: the failed-service list consists of exactly the
first whitespace-delimited token of every non-blank line of the stripped
probe output that does not start with the marker, with no filtering of
header or summary lines; hence whenever at least one non-blank line does
not start with the marker the list is non-empty, even if no service
actually failed. -/
theorem c10_failed_tokens (env : CmdEnv) :
    (∀ s, s ∈ (collect_system_info env).failed_services ↔
      ∃ line ∈ pySplitNl (pyStrip (stdoutOf env CMD_FAILED_SERVICES)),
        (!(stripChars line.data).isEmpty &&
          !(SERVICE_MARKER.data.isPrefixOf line.data)) = true ∧
        s = firstToken line.data) ∧
    ((∃ line ∈ pySplitNl (pyStrip (stdoutOf env CMD_FAILED_SERVICES)),
        (!(stripChars line.data).isEmpty &&
          !(SERVICE_MARKER.data.isPrefixOf line.data)) = true) →
      (collect_system_info env).failed_services ≠ []) := by
  have hmem : ∀ s, s ∈ (collect_system_info env).failed_services ↔
      ∃ line ∈ pySplitNl (pyStrip (stdoutOf env CMD_FAILED_SERVICES)),
        (!(stripChars line.data).isEmpty &&
          !(SERVICE_MARKER.data.isPrefixOf line.data)) = true ∧
        s = firstToken line.data := by
    intro s
    constructor
    · intro hs
      rcases List.mem_map.mp hs with ⟨line, hline, rfl⟩
      rcases List.mem_filter.mp hline with ⟨hin, hp⟩
      exact ⟨line, hin, hp, rfl⟩
    · rintro ⟨line, hin, hp, rfl⟩
      exact List.mem_map.mpr ⟨line, List.mem_filter.mpr ⟨hin, hp⟩, rfl⟩
  refine ⟨hmem, ?_⟩
  rintro ⟨line, hin, hp⟩ hnil
  have : firstToken line.data ∈ (collect_system_info env).failed_services :=
    (hmem (firstToken line.data)).mpr ⟨line, hin, hp, rfl⟩
  rw [hnil] at this
  exact List.not_mem_nil _ this

/-- Claim C10, witness for the amended theorem: a probe output consisting
of a header line and a summary line — no service failed — yields the
non-empty list `["UNIT", "0"]` of their first tokens. -/
theorem c10_failed_tokens_witness :
    (collect_system_info envHeaderLines).failed_services ≠ [] ∧
    (collect_system_info envHeaderLines).failed_services = ["UNIT", "0"] :=
  ⟨(c10_failed_tokens envHeaderLines).2 (by decide), by decide⟩

end UpgradeAgent
